import Mathlib

/-!
Shallow embedding of the SONetwork mesh simulator (src/src/models.py,
src/src/network_simulator.py, src/src/p2p_node.py) and proofs about the
frozen claims on its specification.

Python dicts are modelled as insertion-ordered association lists over `Int`
keys; `bytes` as `List Nat`; simulated time as `ℚ` at the node level and as
`ℝ` at the channel level (where the loss model uses `exp` and `sqrt`).
-/

namespace SONet

/-- Lookup in an insertion-ordered association list (Python `dict[k]` /
`k in dict`). -/
def alookup {α : Type} : List (Int × α) → Int → Option α
  | [], _ => none
  | (k₂, v) :: t, k => if k₂ = k then some v else alookup t k

/-- Assignment `dict[k] = v`: replaces the value in place when the key is
present, appends the pair at the end otherwise (Python dicts preserve
insertion order). -/
def aset {α : Type} : List (Int × α) → Int → α → List (Int × α)
  | [], k, v => [(k, v)]
  | (k₂, w) :: t, k, v => if k₂ = k then (k₂, v) :: t else (k₂, w) :: aset t k v

/-- The keys of a dict in insertion order (Python `for k in dict`). -/
def akeys {α : Type} (l : List (Int × α)) : List Int := l.map Prod.fst

/-- One round of the reflected CRC-32 bit loop (polynomial 0xEDB88320),
as computed by zlib.crc32. -/
def crc32Round (c : Nat) : Nat :=
  if c % 2 = 1 then (c / 2) ^^^ 0xEDB88320 else c / 2

/-- Absorb one byte into a running CRC-32 state. -/
def crc32Byte (c b : Nat) : Nat := crc32Round^[8] (c ^^^ b)

/-- zlib.crc32 over a byte sequence. -/
def crc32 (data : List Nat) : Nat :=
  (data.foldl crc32Byte 0xFFFFFFFF) ^^^ 0xFFFFFFFF

/-- Bytes of an ASCII string (str.encode for strings whose characters are
all below 128, which is the only case the embedded code exercises). -/
def strBytes (s : String) : List Nat := s.data.map Char.toNat

/-- Embeds `BaseFrame` (src/src/models.py lines 63-124).  `payload` and
`metadata` are byte sequences (for `metadata`, the bytes of its JSON
encoding); `timestamp` is an epoch instant.  `crc` is the integrity tag
computed by `__init__`. -/
structure Frame where
  type : String
  sender_id : Int
  destination_id : Option Int
  payload : List Nat
  ttl : Int
  hop_count : ℚ
  timestamp : ℚ
  metadata : List Nat
  crc : Nat
deriving DecidableEq

/-- The byte string `BaseFrame._calculate_crc` hashes (models.py lines
96-104): type ‖ str(sender) ‖ (str(destination) if destination else b'')
‖ payload.  Python truthiness makes the destination part empty both for
`None` and for `0`. -/
def crcData (type : String) (sender_id : Int) (destination_id : Option Int)
    (payload : List Nat) : List Nat :=
  strBytes type ++ strBytes (toString sender_id) ++
    (match destination_id with
      | none => []
      | some d => if d = 0 then [] else strBytes (toString d)) ++ payload

/-- Embeds `BaseFrame._calculate_crc` (models.py lines 96-104). -/
def calculateCrc (type : String) (sender_id : Int) (destination_id : Option Int)
    (payload : List Nat) : Nat :=
  crc32 (crcData type sender_id destination_id payload)

/-- Embeds `BaseFrame.__init__` (models.py lines 66-85): stores the fields
and computes the CRC tag over (type, sender, destination, payload). -/
def mkFrame (type : String) (sender_id : Int) (destination_id : Option Int)
    (payload : List Nat) (ttl : Int) (hop_count : ℚ) (timestamp : ℚ)
    (metadata : List Nat) : Frame :=
  { type := type, sender_id := sender_id, destination_id := destination_id,
    payload := payload, ttl := ttl, hop_count := hop_count,
    timestamp := timestamp, metadata := metadata,
    crc := calculateCrc type sender_id destination_id payload }

/-- Embeds `BaseFrame.verify_crc` (models.py lines 106-108). -/
def verifyCrc (f : Frame) : Bool :=
  f.crc == calculateCrc f.type f.sender_id f.destination_id f.payload

/-- Embeds `Frame.create_beacon` (models.py lines 181-184); `now` is the
construction instant supplied by the clock. -/
def createBeacon (sender_id : Int) (payload : List Nat) (now : ℚ) : Frame :=
  mkFrame "BEACON" sender_id none payload 10 0 now []

/-- Embeds `Frame.create_ack` (models.py lines 186-189).  Note that
`destination_id` is a required positional parameter there. -/
def createAck (sender_id destination_id : Int) (payload : List Nat) (now : ℚ) : Frame :=
  mkFrame "ACK" sender_id (some destination_id) payload 10 0 now []

/-- Embeds `Frame.create_data` (models.py lines 191-205): a DATA frame
with ttl = 20. -/
def createData (sender_id destination_id : Int) (payload : List Nat) (now : ℚ) : Frame :=
  mkFrame "DATA" sender_id (some destination_id) payload 20 0 now []

/-- True exactly when `v` fits the range of struct format 'i'
(signed 32-bit); struct.pack raises otherwise. -/
def int32chk (v : Int) : Bool := decide (-2147483648 ≤ v ∧ v < 2147483648)

/-- Big-endian two's-complement bytes of a signed 32-bit value
(struct.pack '!i'). -/
def int32Bytes (v : Int) : List Nat :=
  let w := (v % 4294967296).toNat
  [w / 16777216 % 256, w / 65536 % 256, w / 256 % 256, w % 256]

/-- Big-endian signed 32-bit value of four bytes (struct.unpack '!i'). -/
def int32OfBytes (b : List Nat) : Int :=
  let w := b.foldl (fun a x => a * 256 + x) (0 : Nat)
  if w < 2147483648 then (w : Int) else (w : Int) - 4294967296

/-- struct.pack '8s': truncate to 8 bytes, pad on the right with NULs. -/
def pack8s (b : List Nat) : List Nat :=
  b.take 8 ++ List.replicate (8 - b.length) 0

/-- Python str.strip(chr 0): remove leading and trailing NUL bytes. -/
def stripNul (b : List Nat) : List Nat :=
  ((b.dropWhile (fun c => c = 0)).reverse.dropWhile (fun c => c = 0)).reverse

/-- Decode a byte list all of whose entries are below 128 into a string
(bytes.decode for ASCII data). -/
def asciiStr (b : List Nat) : String := String.mk (b.map Char.ofNat)

/-- Python int() truncation of a rational toward zero (Lean `Int` division
truncates toward zero). -/
def truncQ (q : ℚ) : Int := q.num / (q.den : Int)

/-- Python `l[i:]` slicing for a possibly negative start index:
a negative start counts from the end, clamped at 0. -/
def pyDropFrom (l : List Nat) (i : Int) : List Nat :=
  if 0 ≤ i then l.drop i.toNat else l.drop ((l.length : Int) + i).toNat

/-- Embeds `Frame.serialize` (models.py lines 135-148).  The header is
struct.pack('!8siiiiii', …): an 8-byte zero-padded type plus six signed
32-bit big-endian integers, 32 bytes in total, followed by the metadata
bytes and the payload.  `none` is returned where the Python code raises:
a type byte outside ASCII (encode('ascii')), an integer outside the
signed 32-bit range (struct.pack 'i'), or a fractional hop count. -/
def serializeFrame (f : Frame) : Option (List Nat) :=
  let tb := strBytes f.type
  let destI : Int := match f.destination_id with | some d => d | none => -1
  let ts : Int := truncQ f.timestamp
  if tb.all (fun c => c < 128) && int32chk f.sender_id && int32chk destI &&
      int32chk f.ttl && decide (f.hop_count.den = 1) && int32chk f.hop_count.num &&
      int32chk ts && int32chk (f.metadata.length : Int) then
    some (pack8s tb ++ int32Bytes f.sender_id ++ int32Bytes destI ++
      int32Bytes f.ttl ++ int32Bytes f.hop_count.num ++ int32Bytes ts ++
      int32Bytes (f.metadata.length : Int) ++ f.metadata ++ f.payload)
  else none

/-- Embeds `Frame.deserialize` (models.py lines 150-179), `none` where the
Python code raises ValueError.  The code slices `header = data[:40]` but
unpacks with format '!8siiiiii', whose size is 32 bytes; struct.unpack
demands a buffer of exactly its size, so the unpack succeeds only when
`data[:40]` has exactly 32 bytes, i.e. when the input is exactly 32 bytes
long.  In that case the metadata slice `data[40:40+meta_len]` is empty, so
a positive parsed metadata length makes json.loads fail on the empty slice
(hence `none`), and the payload slice `data[40+meta_len:]` is empty. -/
def deserializeFrame (data : List Nat) : Option Frame :=
  let header := data.take 40
  if header.length = 32 then
    let tb := data.take 8
    if tb.all (fun c => c < 128) then
      let type := asciiStr (stripNul tb)
      let sender := int32OfBytes ((data.drop 8).take 4)
      let destRaw := int32OfBytes ((data.drop 12).take 4)
      let ttl := int32OfBytes ((data.drop 16).take 4)
      let hops := int32OfBytes ((data.drop 20).take 4)
      let ts := int32OfBytes ((data.drop 24).take 4)
      let metaLen := int32OfBytes ((data.drop 28).take 4)
      let dest : Option Int := if destRaw = -1 then none else some destRaw
      if 0 < metaLen then none
      else some (mkFrame type sender dest (pyDropFrom data (40 + metaLen))
        ttl (hops : ℚ) (ts : ℚ) [])
    else none
  else none

/-- A digit byte of ASCII text. -/
def isDigit (c : Nat) : Bool := 48 ≤ c && c ≤ 57

/-- Value of a string of ASCII digit bytes. -/
def digitsVal (l : List Nat) : Nat := l.foldl (fun a c => a * 10 + (c - 48)) 0

/-- Parse a plain decimal number (optional minus sign, digits, optional
fractional part) into a rational; models Python float() on the numeric
texts the simulator itself emits, `none` where float() raises. -/
def parseDecimal (b : List Nat) : Option ℚ :=
  let core : List Nat → Option ℚ := fun d =>
    match d.splitOn 46 with
    | [ip] => if !ip.isEmpty && ip.all isDigit then some ((digitsVal ip : ℚ)) else none
    | [ip, fp] =>
        if (!ip.isEmpty || !fp.isEmpty) && ip.all isDigit && fp.all isDigit then
          some ((digitsVal ip : ℚ) + (digitsVal fp : ℚ) / ((10 : ℚ) ^ fp.length))
        else none
    | _ => none
  match b with
  | 45 :: t => (core t).map (fun q => -q)
  | _ => core b

/-- Embeds `P2PNode.deserialize_position` (p2p_node.py lines 541-545):
decode the payload as text, split on commas, parse the first three parts
as numbers; `none` where the Python code raises (the caller's bare
`except` then swallows the error).  Non-ASCII bytes are mapped to failure:
the only position payloads the system produces are ASCII, and non-ASCII
valid-UTF-8 text would fail float() anyway. -/
def deserializePosition (b : List Nat) : Option ((ℚ × ℚ) × ℚ) :=
  if b.all (fun c => c < 128) then
    match b.splitOn 44 with
    | p0 :: p1 :: p2 :: _ =>
        match parseDecimal p0, parseDecimal p1, parseDecimal p2 with
        | some x, some y, some t => some ((x, y), t)
        | _, _, _ => none
    | _ => none
  else none

/-- Parse a signed decimal integer from ASCII bytes. -/
def parseIntB (b : List Nat) : Option Int :=
  match b with
  | 45 :: t => if !t.isEmpty && t.all isDigit then some (-(digitsVal t : Int)) else none
  | _ => if !b.isEmpty && b.all isDigit then some ((digitsVal b : Int)) else none

/-- Modelled from the spec: the payload of an RREQ frame.  `Frame.create_rreq`
is called by `P2PNode._initiate_route_discovery` and `P2PNode._process_rreq`
(and by the repository's tests) but is not defined in src/src/models.py, so
the payload carrier is modelled from spec §4.3.6/§4.3.4: a record holding
source_id, target_id, hop_count and max_hops (the keys
`P2PNode._process_rreq` reads), here as an explicit byte encoding standing
in for the JSON object. -/
def rreqPayload (source target hop maxh : Int) : List Nat :=
  strBytes ("RQ:" ++ toString source ++ "," ++ toString target ++ "," ++
    toString hop ++ "," ++ toString maxh)

/-- Modelled from the spec: decoding of an RREQ payload, the partial inverse
of `rreqPayload`.  Stands in for json.loads plus the subscript accesses in
`P2PNode._process_rreq`: any byte string not produced by `rreqPayload`
fails to decode. -/
def rreqPayloadDec (b : List Nat) : Option (Int × Int × Int × Int) :=
  match b with
  | 82 :: 81 :: 58 :: rest =>
      match rest.splitOn 44 with
      | [s, t, h, m] =>
          match parseIntB s, parseIntB t, parseIntB h, parseIntB m with
          | some sv, some tv, some hv, some mv => some (sv, tv, hv, mv)
          | _, _, _, _ => none
      | _ => none
  | _ => none

/-- Modelled from the spec: the payload of an RREP frame.  `Frame.create_rrep`
is called by `P2PNode._process_rreq` and `P2PNode._process_rrep` (and by the
repository's tests) but is not defined in src/src/models.py, so the payload
is modelled from spec §4.3.5 and the reading side `P2PNode._process_rrep`:
a record holding target_id and hop_count (the hop count can be fractional,
since `_process_rreq` adds a route metric to it). -/
def rrepPayload (target : Int) (hop : ℚ) : List Nat :=
  strBytes ("RP:" ++ toString target ++ "," ++ toString hop.num ++ "/" ++
    toString hop.den)

/-- Modelled from the spec: decoding of an RREP payload, the partial inverse
of `rrepPayload`, standing in for json.loads plus the subscript accesses in
`P2PNode._process_rrep`. -/
def rrepPayloadDec (b : List Nat) : Option (Int × ℚ) :=
  match b with
  | 82 :: 80 :: 58 :: rest =>
      match rest.splitOn 44 with
      | [t, h] =>
          match parseIntB t, h.splitOn 47 with
          | some tv, [nu, de] =>
              match parseIntB nu, parseIntB de with
              | some nv, some dv =>
                  if dv = 0 then none else some (tv, (nv : ℚ) / (dv : ℚ))
              | _, _ => none
          | _, _ => none
      | _ => none
  | _ => none

/-- Modelled from the spec: `Frame.create_rreq` (missing from
src/src/models.py; see `rreqPayload`).  Builds an RREQ frame with
ttl = max_hops and the given hop count, per spec §4.3.6 and the keyword
arguments at its call sites. -/
def createRreq (sender_id target_id hop_count max_hops : Int) (now : ℚ) : Frame :=
  mkFrame "RREQ" sender_id none (rreqPayload sender_id target_id hop_count max_hops)
    max_hops (hop_count : ℚ) now []

/-- Modelled from the spec: `Frame.create_rrep` (missing from
src/src/models.py; see `rrepPayload`).  Builds an RREP frame addressed to
the target, per spec §4.3.4/§4.3.5 and the keyword arguments at its call
sites. -/
def createRrep (sender_id target_id : Int) (hop_count : ℚ) (now : ℚ) : Frame :=
  mkFrame "RREP" sender_id (some target_id) (rrepPayload target_id hop_count)
    10 hop_count now []

/-- Embeds `RoutingEntry` (src/src/models.py lines 46-61). -/
structure REntry where
  destination : Int
  next_hop : Int
  expire_time : ℚ
  metric : ℚ
  is_direct : Bool
deriving DecidableEq

/-- The per-node state the embedded `P2PNode` operations read and write:
node_id, routing_table, local_map (id to (position, last_update)) and
delayed_frames (p2p_node.py lines 20-31).  Position, velocity, bitrate and
the command mailbox are omitted: no operation embedded here reads them
(the beacon reply aborts before the node's own position record would be
used, see `processBeacon`). -/
structure PNode where
  node_id : Int
  routing_table : List (Int × REntry)
  local_map : List (Int × ((ℚ × ℚ) × ℚ))
  delayed_frames : List (Int × List Frame)
deriving DecidableEq

/-- A transmission handed to the channel: (frame, sender_id, receiver_id),
the argument triple of `NetworkSimulator.transmit_frame`. -/
abbrev Tx := Frame × Int × Int

/-- The Python exceptions that escape the embedded node handlers. -/
inductive PyErr where
  | typeError
  | unicodeDecodeError
deriving DecidableEq

/-- Embeds `P2PNode._update_routing_table` (p2p_node.py lines 515-535):
insert when absent; when present, replace exactly when the new metric is
strictly lower or the stored entry has expired; `expire_time = now + 60`
(`route_ttl = 60.0`, line 51). -/
def updateRoutingTable (rt : List (Int × REntry)) (now : ℚ)
    (node_id next_hop : Int) (metric : ℚ) : List (Int × REntry) :=
  match alookup rt node_id with
  | some cur =>
      if metric < cur.metric ∨ cur.expire_time ≤ now then
        aset rt node_id ⟨node_id, next_hop, now + 60, metric, true⟩
      else rt
  | none => aset rt node_id ⟨node_id, next_hop, now + 60, metric, true⟩

/-- Embeds `P2PNode._get_neighbors` (p2p_node.py lines 266-274): every
key of the local map except the node's own id, in insertion order. -/
def getNeighbors (n : PNode) : List Int :=
  (akeys n.local_map).filter (fun k => k != n.node_id)

/-- Embeds `P2PNode._delay_frame` (p2p_node.py lines 242-247): append the
frame to the per-destination pending list, creating it when missing. -/
def delayFrame (n : PNode) (frame : Frame) (target_id : Int) : PNode :=
  { n with delayed_frames :=
      match alookup n.delayed_frames target_id with
      | none => n.delayed_frames ++ [(target_id, [frame])]
      | some l => aset n.delayed_frames target_id (l ++ [frame]) }

/-- Embeds `P2PNode._initiate_route_discovery` (p2p_node.py lines 249-264):
only when the target is in the local map, broadcast an RREQ
(hop_count = 0, max_hops = self.max_hops = 10) to every neighbor;
otherwise do nothing at all. -/
def initiateRouteDiscovery (n : PNode) (target_id : Int) (now : ℚ) : List Tx :=
  if (alookup n.local_map target_id).isSome then
    (getNeighbors n).map (fun nb => (createRreq n.node_id target_id 0 10 now, n.node_id, nb))
  else []

/-- Embeds `P2PNode._send_frame` (p2p_node.py lines 225-240).  `ok` is the
boolean the channel returns for the single transmit attempt made when a
route exists (per-call transmission results are data the channel draws at
random, so they enter the embedding as an input). -/
def sendFrame (n : PNode) (frame : Frame) (target_id : Int) (now : ℚ)
    (ok : Bool) : PNode × List Tx :=
  match alookup n.routing_table target_id with
  | some entry =>
      if ok then (n, [(frame, n.node_id, entry.next_hop)])
      else
        let txs := initiateRouteDiscovery n target_id now
        (delayFrame n frame target_id, (frame, n.node_id, entry.next_hop) :: txs)
  | none =>
      let txs := initiateRouteDiscovery n target_id now
      (delayFrame n frame target_id, txs)

/-- Embeds `P2PNode._check_delayed_frames` (p2p_node.py lines 145-161):
for each pending destination that has a routing entry, transmit every
pending frame to that entry's next hop (the per-frame transmit result is
only logged), record the destination as completed, and finally delete
every completed destination from the pending dict — regardless of whether
the individual transmissions succeeded.  Note the node's main loop never
calls this function: its only call site (p2p_node.py line 91) is commented
out. -/
def checkDelayedFrames (n : PNode) : PNode × List Tx :=
  let acc := n.delayed_frames.foldl
    (fun (acc : List Int × List Tx) p =>
      match alookup n.routing_table p.1 with
      | some e => (acc.1 ++ [p.1], acc.2 ++ p.2.map (fun f => (f, n.node_id, e.next_hop)))
      | none => acc)
    ([], [])
  ({ n with delayed_frames := n.delayed_frames.filter (fun p => !(acc.1.contains p.1)) },
   acc.2)

/-- Embeds `P2PNode._process_beacon` (p2p_node.py lines 383-393).  The
code calls `Frame.create_ack(sender_id=self.node_id, payload=...)`, but
`Frame.create_ack` (src/src/models.py line 187) requires the positional
parameter `destination_id`, so in Python this call raises TypeError before
any ACK is built, any transmission happens, or the routing table is
touched. -/
def processBeacon (n : PNode) (f : Frame) : Except PyErr (PNode × List Tx) :=
  .error .typeError

/-- Embeds `P2PNode._process_ack` (p2p_node.py lines 395-398): upsert a
direct route to the sender with metric 1. -/
def processAck (n : PNode) (f : Frame) (now : ℚ) : PNode :=
  { n with routing_table :=
      updateRoutingTable n.routing_table now f.sender_id f.sender_id 1 }

/-- Embeds `P2PNode._process_rreq` (p2p_node.py lines 400-456): on an
undecodable payload, log and return; ignore own echoes; answer with an
RREP when self is the target or a route to the target is known; drop at
the hop cap; otherwise rebroadcast to every neighbor except the frame's
sender. -/
def processRreq (n : PNode) (f : Frame) (now : ℚ) : Except PyErr (PNode × List Tx) :=
  match rreqPayloadDec f.payload with
  | none => .ok (n, [])
  | some (source, target, hop0, maxh) =>
      let hop := hop0 + 1
      if f.sender_id = n.node_id then .ok (n, [])
      else if target = n.node_id then
        .ok (n, [(createRrep n.node_id f.sender_id (hop : ℚ) now, n.node_id, f.sender_id)])
      else
        match alookup n.routing_table target with
        | some e =>
            .ok (n, [(createRrep n.node_id f.sender_id ((hop : ℚ) + e.metric) now,
              n.node_id, f.sender_id)])
        | none =>
            if maxh ≤ hop then .ok (n, [])
            else
              let rq := createRreq f.sender_id target hop maxh now
              .ok (n, ((getNeighbors n).filter (fun nb => nb != f.sender_id)).map
                (fun nb => (rq, n.node_id, nb)))

/-- Embeds `P2PNode._process_rrep` (p2p_node.py lines 458-497): when self
is the target, upsert a route to the frame's sender with the reported hop
count as metric; otherwise, when a route to the target exists, forward a
fresh RREP with hop count + 1 to that route's next hop and also upsert the
route to the frame's sender. -/
def processRrep (n : PNode) (f : Frame) (now : ℚ) : Except PyErr (PNode × List Tx) :=
  match rrepPayloadDec f.payload with
  | none => .ok (n, [])
  | some (target, hop) =>
      if target = n.node_id then
        .ok ({ n with routing_table :=
          updateRoutingTable n.routing_table now f.sender_id f.sender_id hop }, [])
      else
        match alookup n.routing_table target with
        | some e =>
            .ok ({ n with routing_table :=
              updateRoutingTable n.routing_table now f.sender_id f.sender_id hop },
              [(createRrep n.node_id target (hop + 1) now, n.node_id, e.next_hop)])
        | none => .ok (n, [])

/-- Validity of a byte sequence as UTF-8 (RFC 3629 ranges), modelling
whether Python bytes.decode() succeeds in `P2PNode._process_data`. -/
def utf8Decodable : List Nat → Bool
  | [] => true
  | c :: t =>
      if c < 128 then utf8Decodable t
      else if 194 ≤ c && c ≤ 223 then
        match t with
        | c1 :: t2 => (128 ≤ c1 && c1 ≤ 191) && utf8Decodable t2
        | _ => false
      else if c = 224 then
        match t with
        | c1 :: c2 :: t3 =>
            (160 ≤ c1 && c1 ≤ 191) && (128 ≤ c2 && c2 ≤ 191) && utf8Decodable t3
        | _ => false
      else if (225 ≤ c && c ≤ 236) || c = 238 || c = 239 then
        match t with
        | c1 :: c2 :: t3 =>
            (128 ≤ c1 && c1 ≤ 191) && (128 ≤ c2 && c2 ≤ 191) && utf8Decodable t3
        | _ => false
      else if c = 237 then
        match t with
        | c1 :: c2 :: t3 =>
            (128 ≤ c1 && c1 ≤ 159) && (128 ≤ c2 && c2 ≤ 191) && utf8Decodable t3
        | _ => false
      else if c = 240 then
        match t with
        | c1 :: c2 :: c3 :: t4 =>
            (144 ≤ c1 && c1 ≤ 191) && (128 ≤ c2 && c2 ≤ 191) &&
              (128 ≤ c3 && c3 ≤ 191) && utf8Decodable t4
        | _ => false
      else if 241 ≤ c && c ≤ 243 then
        match t with
        | c1 :: c2 :: c3 :: t4 =>
            (128 ≤ c1 && c1 ≤ 191) && (128 ≤ c2 && c2 ≤ 191) &&
              (128 ≤ c3 && c3 ≤ 191) && utf8Decodable t4
        | _ => false
      else if c = 244 then
        match t with
        | c1 :: c2 :: c3 :: t4 =>
            (128 ≤ c1 && c1 ≤ 143) && (128 ≤ c2 && c2 ≤ 191) &&
              (128 ≤ c3 && c3 ≤ 191) && utf8Decodable t4
        | _ => false
      else false

/-- Embeds `P2PNode._process_data` (p2p_node.py lines 499-513): when the
frame is addressed to this node, decode the payload as text — an invalid
UTF-8 payload raises UnicodeDecodeError, which no handler catches;
otherwise forward along a known route or drop with a log line. -/
def processData (n : PNode) (f : Frame) : Except PyErr (PNode × List Tx) :=
  if f.destination_id = some n.node_id then
    if utf8Decodable f.payload then .ok (n, []) else .error .unicodeDecodeError
  else
    match f.destination_id with
    | some d =>
        match alookup n.routing_table d with
        | some e => .ok (n, [(f, n.node_id, e.next_hop)])
        | none => .ok (n, [])
    | none => .ok (n, [])

/-- Embeds `P2PNode.receive_frame` (p2p_node.py lines 357-381): for
position-bearing kinds, try to decode the payload into the local map (a
bare `except: pass` swallows any decoding failure), then dispatch on the
frame type.  The result collects the transmissions handed to the channel
(whose boolean results the handlers ignore) or the Python exception that
escapes. -/
def receiveFrame (n : PNode) (f : Frame) (now : ℚ) : Except PyErr (PNode × List Tx) :=
  let n1 :=
    if f.type = "BEACON" ∨ f.type = "ACK" ∨ f.type = "SYN" then
      match deserializePosition f.payload with
      | some (p, t) => { n with local_map := aset n.local_map f.sender_id (p, t) }
      | none => n
    else n
  if f.type = "BEACON" then processBeacon n1 f
  else if f.type = "ACK" then .ok (processAck n1 f now, [])
  else if f.type = "RREQ" then processRreq n1 f now
  else if f.type = "RREP" then processRrep n1 f now
  else if f.type = "DATA" then processData n1 f
  else .ok (n1, [])

/-- The coverage radius R (src/src/constants.py: R = 10000 m). -/
def Rconst : ℝ := 10000

/-- Embeds `Position.distance_to` (src/src/models.py lines 16-18),
math.hypot over the coordinate differences. -/
noncomputable def distanceTo (p q : ℝ × ℝ) : ℝ :=
  Real.sqrt ((p.1 - q.1) ^ 2 + (p.2 - q.2) ^ 2)

/-- The channel's transmission counters
(`NetworkSimulator.transmission_stats`, network_simulator.py lines 25-30). -/
structure TStats where
  success : ℕ
  failed_distance : ℕ
  failed_transmission : ℕ
  total : ℕ
deriving DecidableEq

/-- The channel state the embedded `NetworkSimulator` operations touch:
per-id (position, bitrate) of registered nodes, the delivery queue entries
(delivery_time, frame, receiver_id), the current simulation time and the
counters (network_simulator.py lines 19-30). -/
structure ChState where
  nodes : List (Int × ((ℝ × ℝ) × ℝ))
  frame_queue : List (ℝ × Frame × Int)
  current_time : ℝ
  stats : TStats

/-- A freshly constructed simulator over a given node registry: empty
queue, all counters at zero (`NetworkSimulator.__init__`; registering
nodes via add_node changes no counter and no queue entry). -/
def chInit (nodes : List (Int × ((ℝ × ℝ) × ℝ))) : ChState :=
  { nodes := nodes, frame_queue := [], current_time := 0,
    stats := ⟨0, 0, 0, 0⟩ }

/-- Embeds `NetworkSimulator._calculate_transmission_probability`
(network_simulator.py lines 143-155): exp(-0.3 d / R) times a size factor
1 - (|payload|/1024)·0.1 times a bitrate factor 1 - (bitrate/10000)·0.05.
Neither factor is clamped. -/
noncomputable def calcTransmissionProb (distance bitrate : ℝ) (f : Frame) : ℝ :=
  let alpha : ℝ := 0.3
  let distance_factor := Real.exp (-alpha * distance / Rconst)
  let size_factor := 1 - ((f.payload.length : ℝ) / 1024) * 0.1
  let bitrate_factor := 1 - (bitrate / 10000) * 0.05
  distance_factor * size_factor * bitrate_factor

/-- Embeds `NetworkSimulator._calculate_transmission_delay`
(network_simulator.py lines 157-169); `jitter` is the uniform draw from
[0.9, 1.1]. -/
noncomputable def calcTransmissionDelay (distance bitrate : ℝ) (f : Frame)
    (jitter : ℝ) : ℝ :=
  let frame_size_bits := ((4 + f.payload.length + 2 + 8 : ℕ) : ℝ) * 8
  let transmission_time := frame_size_bits / bitrate
  let propagation_delay := distance / 300000000
  (transmission_time + propagation_delay) * jitter

/-- Embeds `NetworkSimulator.transmit_frame` (network_simulator.py lines
106-141).  `u` is the uniform loss draw, `jitter` the delay draw.  The
total counter is incremented on entry; an unknown sender or receiver
returns False without touching any failure counter; then the range check
(failed_distance), the loss draw (failed_transmission), and finally the
delivery is queued at current_time + delay and success is incremented. -/
noncomputable def transmitFrame (s : ChState) (f : Frame) (sender_id receiver_id : Int)
    (u jitter : ℝ) : ChState × Bool :=
  let s1 := { s with stats := { s.stats with total := s.stats.total + 1 } }
  match alookup s.nodes sender_id, alookup s.nodes receiver_id with
  | some sender, some receiver =>
      let d := distanceTo sender.1 receiver.1
      if d > Rconst then
        ({ s1 with stats :=
            { s1.stats with failed_distance := s1.stats.failed_distance + 1 } }, false)
      else
        let p := calcTransmissionProb d sender.2 f
        if u > p then
          ({ s1 with stats :=
              { s1.stats with failed_transmission := s1.stats.failed_transmission + 1 } },
            false)
        else
          let delay := calcTransmissionDelay d sender.2 f jitter
          ({ s1 with
              frame_queue := s1.frame_queue ++ [(s.current_time + delay, f, receiver_id)],
              stats := { s1.stats with success := s1.stats.success + 1 } }, true)
  | _, _ => (s1, false)

/-- Follows the spec's words for the loss model (spec §4.2), for comparison
with `calcTransmissionProb`: p = exp(-α·d/R) · (1 − 0.1·min(1, |payload|/1024))
· (1 − 0.05·min(1, bitrate/10000)) with α = 0.3, the size and bitrate
factors clamped via the min. -/
noncomputable def specTransmissionProb (distance bitrate : ℝ) (f : Frame) : ℝ :=
  Real.exp (-(0.3) * distance / Rconst) *
    (1 - 0.1 * min 1 ((f.payload.length : ℝ) / 1024)) *
    (1 - 0.05 * min 1 (bitrate / 10000))

/-- One call to `transmit_frame`: the frame, the endpoint ids, and the two
random draws the call consumes. -/
structure ChCall where
  frame : Frame
  sender : Int
  receiver : Int
  u : ℝ
  jitter : ℝ

/-- A sequence of `transmit_frame` calls, applied in order. -/
noncomputable def runTransmits (s : ChState) (cs : List ChCall) : ChState :=
  cs.foldl (fun st c => (transmitFrame st c.frame c.sender c.receiver c.u c.jitter).1) s

/-- A call whose sender or receiver id is not registered: the branch of
`transmit_frame` that returns False without incrementing any failure
counter. -/
def unknownCall (nodes : List (Int × ((ℝ × ℝ) × ℝ))) (c : ChCall) : Bool :=
  (alookup nodes c.sender).isNone || (alookup nodes c.receiver).isNone

/-- The strict order the delivery queue's heap actually compares entries
with.  Entries are the tuples (delivery_time, frame, receiver_id) pushed
by `transmit_frame` (network_simulator.py line 137); Python compares
tuples lexicographically, two distinct `Frame` objects are never equal
(no `__eq__`), and `BaseFrame.__lt__` (models.py lines 92-94) compares
creation timestamps, so for entries holding distinct frame objects the
comparison is: earlier delivery time first, ties broken by the frame's
creation timestamp, and the receiver id is never reached. -/
def entryLT (e1 e2 : ℝ × Frame × Int) : Prop :=
  e1.1 < e2.1 ∨ (e1.1 = e2.1 ∧ e1.2.1.timestamp < e2.2.1.timestamp)

/-- The transmissions `P2PNode._check_delayed_frames` hands to the channel,
in order: for each pending destination with a routing entry, every pending
frame addressed to that entry's next hop (used to characterise
`checkDelayedFrames`). -/
def routedTxs (rt : List (Int × REntry)) (nid : Int) :
    List (Int × List Frame) → List Tx
  | [] => []
  | p :: t =>
      (match alookup rt p.1 with
        | some e => p.2.map (fun f => (f, nid, e.next_hop))
        | none => []) ++ routedTxs rt nid t

/-! ### Association-list lemmas -/

theorem aset_of_none {α : Type} {l : List (Int × α)} {k : Int} (v : α)
    (h : alookup l k = none) : aset l k v = l ++ [(k, v)] := by
  induction l with
  | nil => rfl
  | cons p t ih =>
      obtain ⟨k₂, w⟩ := p
      rw [alookup] at h
      by_cases hk : k₂ = k
      · simp [hk] at h
      · rw [if_neg hk] at h
        rw [aset, if_neg hk, ih h, List.cons_append]

theorem alookup_aset_self {α : Type} (l : List (Int × α)) (k : Int) (v : α) :
    alookup (aset l k v) k = some v := by
  induction l with
  | nil => simp [aset, alookup]
  | cons p t ih =>
      rw [aset]
      by_cases hk : p.1 = k
      · simp [alookup, hk]
      · simp [alookup, hk, ih]

theorem alookup_append_right {α : Type} {l : List (Int × α)} {k : Int}
    (l2 : List (Int × α)) (h : alookup l k = none) :
    alookup (l ++ l2) k = alookup l2 k := by
  induction l with
  | nil => rfl
  | cons p t ih =>
      rw [alookup] at h
      by_cases hk : p.1 = k
      · simp [hk] at h
      · rw [List.cons_append, alookup, if_neg hk]
        exact ih (by simpa [hk] using h)

/-! ### C10 — CRC blindness to a zero destination -/

/-- C10: a frame constructed with destination_id = 0 carries exactly the
same CRC-32 tag as the otherwise identical frame with destination_id =
None — the CRC data omits a falsy destination — so verify_crc cannot tell
a frame addressed to node 0 from one with no destination. -/
theorem crc_zero_destination (type : String) (sender_id : Int) (payload : List Nat)
    (ttl : Int) (hop_count timestamp : ℚ) (metadata : List Nat) :
    (mkFrame type sender_id (some 0) payload ttl hop_count timestamp metadata).crc =
      (mkFrame type sender_id none payload ttl hop_count timestamp metadata).crc ∧
    verifyCrc (mkFrame type sender_id (some 0) payload ttl hop_count timestamp metadata) =
      verifyCrc (mkFrame type sender_id none payload ttl hop_count timestamp metadata) := by
  constructor <;> simp [mkFrame, verifyCrc, calculateCrc, crcData]

/-! ### C7 — routing-table update rule -/

/-- C7: _update_routing_table inserts a fresh entry (expire_time = now + 60)
when the destination is absent; when present it replaces the entry (again
with expire_time = now + 60) exactly when the stored entry has expired or
the new metric is strictly lower; in every other case the table is
unchanged. -/
theorem routing_update_rule (rt : List (Int × REntry)) (now : ℚ)
    (nid nh : Int) (metric : ℚ) :
    (alookup rt nid = none →
      updateRoutingTable rt now nid nh metric =
        rt ++ [(nid, ⟨nid, nh, now + 60, metric, true⟩)]) ∧
    (∀ cur, alookup rt nid = some cur →
      (cur.expire_time ≤ now ∨ metric < cur.metric) →
      updateRoutingTable rt now nid nh metric =
        aset rt nid ⟨nid, nh, now + 60, metric, true⟩) ∧
    (∀ cur, alookup rt nid = some cur →
      ¬cur.expire_time ≤ now → ¬metric < cur.metric →
      updateRoutingTable rt now nid nh metric = rt) := by
  refine ⟨fun h => ?_, fun cur h hc => ?_, fun cur h h1 h2 => ?_⟩
  · simp only [updateRoutingTable, h]
    exact aset_of_none _ h
  · simp only [updateRoutingTable, h]
    rw [if_pos hc.symm]
  · simp only [updateRoutingTable, h]
    rw [if_neg (by tauto)]

/-- Witness for `routing_update_rule`: the three cases at concrete inputs —
insertion into an empty table, replacement of an expired entry, and an
update that leaves a live better entry untouched. -/
theorem routing_update_rule_witness :
    updateRoutingTable [] 0 2 7 1 = [] ++ [(2, ⟨2, 7, 0 + 60, 1, true⟩)] ∧
    updateRoutingTable [(2, ⟨2, 9, 10, 5, true⟩)] 20 2 7 1 =
      aset [(2, ⟨2, 9, 10, 5, true⟩)] 2 ⟨2, 7, 20 + 60, 1, true⟩ ∧
    updateRoutingTable [(2, ⟨2, 9, 10, 5, true⟩)] 0 2 7 6 =
      [(2, ⟨2, 9, 10, 5, true⟩)] := by
  refine ⟨(routing_update_rule [] 0 2 7 1).1 (by decide),
    (routing_update_rule [(2, ⟨2, 9, 10, 5, true⟩)] 20 2 7 1).2.1
      ⟨2, 9, 10, 5, true⟩ (by decide) (Or.inl (by norm_num)),
    (routing_update_rule [(2, ⟨2, 9, 10, 5, true⟩)] 0 2 7 6).2.2
      ⟨2, 9, 10, 5, true⟩ (by decide) (by norm_num) (by norm_num)⟩

/-! ### C9 — frame serialize/deserialize round trip -/

/-- C9: the round trip fails on the code.  Frame.serialize packs the header
with struct format '!8siiiiii', which is 32 bytes, while Frame.deserialize
slices data[:40] and unpacks it with the same 32-byte format;
struct.unpack demands a buffer of exactly 32 bytes, so deserialization of
any serialized frame with a nonempty payload (here the two-byte payload
b'hi') raises instead of returning an equal frame. -/
theorem serialize_roundtrip_raises :
    (serializeFrame (createData 1 2 [104, 105] 0)).isSome = true ∧
    (serializeFrame (createData 1 2 [104, 105] 0)).bind deserializeFrame = none := by
  decide

/-! ### C8 — delivery-queue ordering -/

/-- C8: the claim fails — queue entries carry no sequence number, and the
tiebreaker after delivery_time is the frame's creation timestamp, so two
distinct entries with equal delivery times and equal frame timestamps are
mutually incomparable: the order is not total, hence not deterministic. -/
theorem queue_order_cex :
    ((5 : ℝ), mkFrame "DATA" 1 (some 2) [104] 20 0 0 [], (2 : ℤ)) ≠
      ((5 : ℝ), mkFrame "DATA" 1 (some 2) [105] 20 0 0 [], (3 : ℤ)) ∧
    ¬entryLT ((5 : ℝ), mkFrame "DATA" 1 (some 2) [104] 20 0 0 [], (2 : ℤ))
      ((5 : ℝ), mkFrame "DATA" 1 (some 2) [105] 20 0 0 [], (3 : ℤ)) ∧
    ¬entryLT ((5 : ℝ), mkFrame "DATA" 1 (some 2) [105] 20 0 0 [], (3 : ℤ))
      ((5 : ℝ), mkFrame "DATA" 1 (some 2) [104] 20 0 0 [], (2 : ℤ)) := by
  refine ⟨fun h => ?_, ?_, ?_⟩
  · have := congrArg (fun e => e.2.2) h
    simp at this
  · simp [entryLT, mkFrame]
  · simp [entryLT, mkFrame]

/-- C8 (amended): the only comparison the delivery queue's heap performs
is by (delivery_time, frame creation timestamp): any two entries are
ordered one way or the other unless both the delivery times and the frame
timestamps coincide — in which case neither precedes the other and the
order between them is left undetermined. -/
theorem queue_order_trichotomy (e1 e2 : ℝ × Frame × Int) :
    entryLT e1 e2 ∨ entryLT e2 e1 ∨
      (e1.1 = e2.1 ∧ e1.2.1.timestamp = e2.2.1.timestamp) := by
  rcases lt_trichotomy e1.1 e2.1 with h | h | h
  · exact Or.inl (Or.inl h)
  · rcases lt_trichotomy e1.2.1.timestamp e2.2.1.timestamp with h2 | h2 | h2
    · exact Or.inl (Or.inr ⟨h, h2⟩)
    · exact Or.inr (Or.inr ⟨h, h2⟩)
    · exact Or.inr (Or.inl (Or.inr ⟨h.symm, h2⟩))
  · exact Or.inr (Or.inl (Or.inl h))

/-! ### C4 — beacon reply -/

/-- C4: the claim fails on the code as written — receiving a BEACON (here
a well-formed one carrying the position record "1,2,3") raises TypeError,
because _process_beacon calls Frame.create_ack without the required
destination_id parameter; no ACK is transmitted and no routing entry is
upserted. -/
theorem beacon_reply_raises :
    receiveFrame ⟨1, [], [(1, ((0, 0), 0))], []⟩
      (createBeacon 2 [49, 44, 50, 44, 51] 0) 0 = .error .typeError := by
  rfl

/-! ### C5 — receive_frame error isolation -/

/-- C5: the claim fails on the code as written — exceptions do escape
receive_frame: every BEACON raises TypeError (the ACK-reply construction
calls Frame.create_ack without its required destination_id), and a DATA
frame addressed to the node whose payload is not valid UTF-8 (here the
single byte 0xFF) raises UnicodeDecodeError. -/
theorem receive_frame_exception_escapes :
    receiveFrame ⟨7, [], [(7, ((0, 0), 0))], []⟩ (createBeacon 8 [] 0) 0 =
      .error .typeError ∧
    receiveFrame ⟨7, [], [(7, ((0, 0), 0))], []⟩ (createData 8 7 [255] 0) 0 =
      .error .unicodeDecodeError := by
  exact ⟨rfl, rfl⟩

/-! ### C1 — transmission counters -/

theorem transmit_nodes (s : ChState) (f : Frame) (a b : Int) (u j : ℝ) :
    (transmitFrame s f a b u j).1.nodes = s.nodes := by
  cases h1 : alookup s.nodes a with
  | none => simp [transmitFrame, h1]
  | some sv =>
      cases h2 : alookup s.nodes b with
      | none => simp [transmitFrame, h1, h2]
      | some rv =>
          simp only [transmitFrame, h1, h2]
          split_ifs <;> rfl

theorem transmit_stats (s : ChState) (f : Frame) (a b : Int) (u j : ℝ) :
    (transmitFrame s f a b u j).1.stats.total = s.stats.total + 1 ∧
    (transmitFrame s f a b u j).1.stats.success +
      (transmitFrame s f a b u j).1.stats.failed_distance +
      (transmitFrame s f a b u j).1.stats.failed_transmission =
      s.stats.success + s.stats.failed_distance + s.stats.failed_transmission +
        (if unknownCall s.nodes ⟨f, a, b, u, j⟩ then 0 else 1) := by
  cases h1 : alookup s.nodes a with
  | none => simp [transmitFrame, unknownCall, h1]
  | some sv =>
      cases h2 : alookup s.nodes b with
      | none => simp [transmitFrame, unknownCall, h1, h2]
      | some rv =>
          have hu : unknownCall s.nodes ⟨f, a, b, u, j⟩ = false := by
            simp [unknownCall, h1, h2]
          simp only [transmitFrame, h1, h2, hu]
          rw [if_neg Bool.false_ne_true]
          split_ifs <;> simp <;> omega

theorem countP_total {α : Type} (p : α → Bool) (l : List α) :
    l.countP p + l.countP (fun a => !p a) = l.length := by
  induction l with
  | nil => rfl
  | cons c t ih =>
      rw [List.countP_cons, List.countP_cons, List.length_cons]
      cases hu : p c <;> simp [hu] <;> omega

theorem runTransmits_invariant (cs : List ChCall) : ∀ s : ChState,
    (runTransmits s cs).nodes = s.nodes ∧
    (runTransmits s cs).stats.total = s.stats.total + cs.length ∧
    (runTransmits s cs).stats.success + (runTransmits s cs).stats.failed_distance +
      (runTransmits s cs).stats.failed_transmission =
      s.stats.success + s.stats.failed_distance + s.stats.failed_transmission +
        cs.countP (fun c => !unknownCall s.nodes c) := by
  induction cs with
  | nil => intro s; simp [runTransmits]
  | cons c t ih =>
      intro s
      have hrun : runTransmits s (c :: t) =
          runTransmits ((transmitFrame s c.frame c.sender c.receiver c.u c.jitter).1) t := rfl
      have hn := transmit_nodes s c.frame c.sender c.receiver c.u c.jitter
      have hst := transmit_stats s c.frame c.sender c.receiver c.u c.jitter
      obtain ⟨ihn, iht, ihs⟩ := ih (transmitFrame s c.frame c.sender c.receiver c.u c.jitter).1
      refine ⟨by rw [hrun, ihn, hn], ?_, ?_⟩
      · rw [hrun, iht, hst.1, List.length_cons]
        omega
      · rw [hrun, ihs, hst.2, hn, List.countP_cons]
        cases hu : unknownCall s.nodes c <;> simp [hu] <;> omega

/-- C1 (amended): the counters of a simulator satisfy
total = success + failed_distance + failed_transmission + U, where U is the
number of transmit_frame calls that failed because the sender or receiver
id was not registered; out-of-range and loss failures each increment
exactly their counter, but an unknown-endpoint failure increments only
total, so the claimed three-term identity holds exactly when no
unknown-endpoint failure has occurred. -/
theorem transmit_counter_invariant (nodes : List (Int × ((ℝ × ℝ) × ℝ)))
    (cs : List ChCall) :
    (runTransmits (chInit nodes) cs).stats.total =
      (runTransmits (chInit nodes) cs).stats.success +
        (runTransmits (chInit nodes) cs).stats.failed_distance +
        (runTransmits (chInit nodes) cs).stats.failed_transmission +
        cs.countP (unknownCall nodes) := by
  obtain ⟨-, ht, hs⟩ := runTransmits_invariant cs (chInit nodes)
  have hlen := countP_total (unknownCall nodes) cs
  have h0 : (chInit nodes).stats = ⟨0, 0, 0, 0⟩ := rfl
  have hnn : (chInit nodes).nodes = nodes := rfl
  rw [h0] at ht hs
  rw [hnn] at hs
  simp at ht hs
  omega

/-- C1: the claim fails on the code — a transmit_frame call whose receiver
(here also the sender) is unregistered, on a freshly constructed
simulator, returns False, increments total, and increments neither
failure counter, so total = 1 while success + failed_distance +
failed_transmission = 0. -/
theorem transmit_counter_cex :
    ¬((transmitFrame (chInit []) (createData 1 2 [] 0) 1 2 0 1).1.stats.total =
        (transmitFrame (chInit []) (createData 1 2 [] 0) 1 2 0 1).1.stats.success +
        (transmitFrame (chInit []) (createData 1 2 [] 0) 1 2 0 1).1.stats.failed_distance +
        (transmitFrame (chInit []) (createData 1 2 [] 0) 1 2 0 1).1.stats.failed_transmission) ∧
    (transmitFrame (chInit []) (createData 1 2 [] 0) 1 2 0 1).2 = false := by
  have h : (transmitFrame (chInit []) (createData 1 2 [] 0) 1 2 0 1).1.stats =
      ⟨0, 0, 0, 1⟩ := by
    simp [transmitFrame, chInit, alookup]
  refine ⟨?_, by simp [transmitFrame, chInit, alookup]⟩
  rw [h]
  simp

/-! ### C6 — loss model -/

/-- C6: the claim fails on the code — the channel's success probability
omits the min(1, ·) clamps of the spec formula.  At distance 0 with
bitrate 10000 and a 2048-byte payload the code computes
1 · (1 − (2048/1024)·0.1) · (1 − 0.05) = 0.76 while the spec formula gives
1 · (1 − 0.1·min(1, 2)) · (1 − 0.05·min(1, 1)) = 0.855. -/
theorem loss_model_formula_cex :
    calcTransmissionProb 0 10000
        (mkFrame "DATA" 1 (some 2) (List.replicate 2048 0) 20 0 0 []) ≠
      specTransmissionProb 0 10000
        (mkFrame "DATA" 1 (some 2) (List.replicate 2048 0) 20 0 0 []) := by
  have hlen : (mkFrame "DATA" 1 (some 2) (List.replicate 2048 0) 20 0 0
      []).payload.length = 2048 := List.length_replicate 2048 0
  simp only [calcTransmissionProb, specTransmissionProb, hlen]
  have he : Real.exp (-(0.3 : ℝ) * 0 / Rconst) = 1 := by
    norm_num [Real.exp_zero]
  rw [he]
  have h1 : (((2048 : ℕ) : ℝ) / 1024) = 2 := by norm_num
  have h2 : ((10000 : ℝ) / 10000) = 1 := by norm_num
  rw [h1, h2, min_eq_left (by norm_num : (1 : ℝ) ≤ 2), min_self]
  norm_num

/-- C6 (amended): for a transmission between two registered endpoints at
distance d ≤ R, the channel's per-frame success probability is
exp(−0.3·d/R) · (1 − 0.1·(|payload|/1024)) · (1 − 0.05·(bitrate/10000))
with no clamping of the size and bitrate factors (so it can leave [0, 1]),
and the frame is dropped with failed_transmission incremented exactly when
the uniform draw u exceeds that (unclamped) probability. -/
theorem loss_model_unclamped (s : ChState) (f : Frame) (sid rid : Int) (u j : ℝ)
    (sv rv : (ℝ × ℝ) × ℝ) (hs : alookup s.nodes sid = some sv)
    (hr : alookup s.nodes rid = some rv)
    (hd : distanceTo sv.1 rv.1 ≤ Rconst) :
    calcTransmissionProb (distanceTo sv.1 rv.1) sv.2 f =
      Real.exp (-(0.3) * distanceTo sv.1 rv.1 / Rconst) *
        (1 - 0.1 * ((f.payload.length : ℝ) / 1024)) *
        (1 - 0.05 * (sv.2 / 10000)) ∧
    (((transmitFrame s f sid rid u j).2 = false ∧
        (transmitFrame s f sid rid u j).1.stats.failed_transmission =
          s.stats.failed_transmission + 1) ↔
      u > calcTransmissionProb (distanceTo sv.1 rv.1) sv.2 f) := by
  constructor
  · simp only [calcTransmissionProb]
    ring
  · simp only [transmitFrame, hs, hr]
    rw [if_neg (not_lt.mpr hd)]
    by_cases hu : u > calcTransmissionProb (distanceTo sv.1 rv.1) sv.2 f
    · rw [if_pos hu]
      simp [hu]
    · rw [if_neg hu]
      simp [hu]

/-- Witness for `loss_model_unclamped`: two registered nodes at the same
position (distance 0, bitrate 5000) and the draw u = 1, which exceeds the
computed probability 0.975, so the frame is dropped and
failed_transmission is incremented. -/
theorem loss_model_unclamped_witness :
    distanceTo ((0 : ℝ), (0 : ℝ)) (0, 0) ≤ Rconst ∧
    ((transmitFrame (chInit [(1, ((0, 0), 5000)), (2, ((0, 0), 5000))])
        (createData 1 2 [] 0) 1 2 1 1).2 = false ∧
      (transmitFrame (chInit [(1, ((0, 0), 5000)), (2, ((0, 0), 5000))])
        (createData 1 2 [] 0) 1 2 1 1).1.stats.failed_transmission =
        (chInit [(1, ((0, 0), 5000)), (2, ((0, 0), 5000))]).stats.failed_transmission
          + 1) := by
  have hd0 : distanceTo ((0 : ℝ), (0 : ℝ)) (0, 0) = 0 := by
    simp [distanceTo]
  have hd : distanceTo ((0 : ℝ), (0 : ℝ)) (0, 0) ≤ Rconst := by
    rw [hd0]; norm_num [Rconst]
  have h := loss_model_unclamped (chInit [(1, ((0, 0), 5000)), (2, ((0, 0), 5000))])
    (createData 1 2 [] 0) 1 2 1 1 ((0, 0), 5000) ((0, 0), 5000) rfl rfl hd
  have hp : (1 : ℝ) > calcTransmissionProb (distanceTo ((0 : ℝ), (0 : ℝ)) (0, 0))
      5000 (createData 1 2 [] 0) := by
    simp only [calcTransmissionProb, hd0, createData, mkFrame]
    norm_num [Real.exp_zero, Rconst]
  exact ⟨hd, h.2.mpr hp⟩

/-! ### C2 — delayed-frame flush -/

theorem cdf_fold_aux (rt : List (Int × REntry)) (nid : Int)
    (l : List (Int × List Frame)) : ∀ acc : List Int × List Tx,
    (l.foldl (fun (acc : List Int × List Tx) p =>
        match alookup rt p.1 with
        | some e => (acc.1 ++ [p.1], acc.2 ++ p.2.map (fun f => (f, nid, e.next_hop)))
        | none => acc) acc) =
      (acc.1 ++ (l.filter (fun p => (alookup rt p.1).isSome)).map Prod.fst,
       acc.2 ++ routedTxs rt nid l) := by
  induction l with
  | nil => intro acc; simp [routedTxs]
  | cons p t ih =>
      intro acc
      rw [List.foldl_cons]
      cases hp : alookup rt p.1 with
      | none => simp [hp, ih, routedTxs]
      | some e => simp [hp, ih, routedTxs]

theorem int_contains_iff (l : List Int) (a : Int) : l.contains a = true ↔ a ∈ l := by
  induction l with
  | nil => simp
  | cons b t ih =>
      rw [List.contains_cons, Bool.or_eq_true, beq_iff_eq, ih, List.mem_cons]

theorem checkDelayedFrames_eq (n : PNode) :
    (checkDelayedFrames n).1.delayed_frames =
      n.delayed_frames.filter (fun p => (alookup n.routing_table p.1).isNone) ∧
    (checkDelayedFrames n).2 = routedTxs n.routing_table n.node_id n.delayed_frames ∧
    (checkDelayedFrames n).1.node_id = n.node_id ∧
    (checkDelayedFrames n).1.routing_table = n.routing_table := by
  unfold checkDelayedFrames
  rw [cdf_fold_aux]
  simp only [List.nil_append]
  refine ⟨?_, trivial, trivial, trivial⟩
  refine List.filter_congr ?_
  intro p hp
  cases hl : alookup n.routing_table p.1 with
  | some e =>
      have hmem : p.1 ∈ (n.delayed_frames.filter
          (fun q => (alookup n.routing_table q.1).isSome)).map Prod.fst :=
        List.mem_map.mpr ⟨p, List.mem_filter.mpr ⟨hp, by simp [hl]⟩, rfl⟩
      rw [(int_contains_iff _ _).mpr hmem]
      rfl
  | none =>
      cases hc : (((n.delayed_frames.filter
          (fun q => (alookup n.routing_table q.1).isSome)).map Prod.fst).contains p.1) with
      | true =>
          exfalso
          obtain ⟨q, hq, hq1⟩ := List.mem_map.mp ((int_contains_iff _ _).mp hc)
          have hqs := (List.mem_filter.mp hq).2
          rw [hq1, hl] at hqs
          simp at hqs
      | false =>
          rfl

theorem routedTxs_mem (rt : List (Int × REntry)) (nid : Int)
    (l : List (Int × List Frame)) (p : Int × List Frame) (e : REntry) (f : Frame)
    (hp : p ∈ l) (he : alookup rt p.1 = some e) (hf : f ∈ p.2) :
    (f, nid, e.next_hop) ∈ routedTxs rt nid l := by
  induction l with
  | nil => cases hp
  | cons q t ih =>
      rcases List.mem_cons.mp hp with h | h
      · subst h
        rw [routedTxs]
        exact List.mem_append.mpr (Or.inl (by
          rw [he]
          exact List.mem_map.mpr ⟨f, hf, rfl⟩))
      · rw [routedTxs]
        exact List.mem_append.mpr (Or.inr (ih h))

/-- C2: the claim fails on the code — a route insertion does not flush the
delayed frames.  A node holding one pending DATA frame for destination 2
receives an ACK from node 2: a new usable route 2 → 2 is inserted into the
routing table, yet no transmission is attempted and the pending frame
stays queued (the only flush routine, _check_delayed_frames, is called
from nowhere: its sole call site in the node loop is commented out). -/
theorem route_insert_no_flush_cex :
    (receiveFrame ⟨1, [], [(1, ((0, 0), 0))], [(2, [createData 1 2 [104] 0])]⟩
        (mkFrame "ACK" 2 none [] 10 0 0 []) 0).toOption.map
      (fun r => ((alookup r.1.routing_table 2).isSome, r.1.delayed_frames, r.2)) =
      some (true, [(2, [createData 1 2 [104] 0])], []) := by
  rfl

/-- C2 (amended): route insertion never triggers a delayed-frame flush —
processing an ACK (the route-insertion path exercised above) leaves
DelayedFrames untouched and hands nothing to the channel.  The separate
routine _check_delayed_frames, which the node loop never invokes (its call
site is commented out), would, when invoked: attempt every pending frame
of every destination that has a routing entry, addressed to that entry's
next hop, and then delete those destinations' whole queues regardless of
the per-frame transmission results. -/
theorem delayed_frames_behavior :
    (∀ (n : PNode) (f : Frame) (now : ℚ), f.type = "ACK" →
      (receiveFrame n f now).map (fun r => r.1.delayed_frames) = .ok n.delayed_frames ∧
      (receiveFrame n f now).map (fun r => r.2) = .ok ([] : List Tx)) ∧
    (∀ n : PNode,
      (checkDelayedFrames n).1.delayed_frames =
        n.delayed_frames.filter (fun p => (alookup n.routing_table p.1).isNone) ∧
      (checkDelayedFrames n).2 = routedTxs n.routing_table n.node_id n.delayed_frames) ∧
    (∀ (n : PNode) (p : Int × List Frame) (e : REntry) (f : Frame),
      p ∈ n.delayed_frames → alookup n.routing_table p.1 = some e → f ∈ p.2 →
      (f, n.node_id, e.next_hop) ∈ (checkDelayedFrames n).2) := by
  refine ⟨?_, fun n => ⟨(checkDelayedFrames_eq n).1, (checkDelayedFrames_eq n).2.1⟩,
    fun n p e f hp he hf => ?_⟩
  · intro n f now h
    cases hdp : deserializePosition f.payload with
    | none => constructor <;> simp [receiveFrame, h, hdp, processAck, Except.map]
    | some pt => constructor <;> simp [receiveFrame, h, hdp, processAck, Except.map]
  · rw [(checkDelayedFrames_eq n).2.1]
    exact routedTxs_mem n.routing_table n.node_id n.delayed_frames p e f hp he hf

set_option maxRecDepth 8000 in
/-- Witness for `delayed_frames_behavior`: concrete instances — an ACK
received by a node with a pending frame changes no delayed frame and
transmits nothing; _check_delayed_frames on a node with routes for
destination 2 only attempts its pending frame toward next hop 5 and
deletes exactly that destination's queue. -/
theorem delayed_frames_behavior_witness :
    ((receiveFrame ⟨1, [], [], [(9, [createData 1 9 [] 0])]⟩
        (mkFrame "ACK" 3 none [] 10 0 0 []) 0).map
      (fun r => r.1.delayed_frames) = .ok [(9, [createData 1 9 [] 0])]) ∧
    ((checkDelayedFrames ⟨1, [(2, ⟨2, 5, 100, 1, true⟩)], [],
        [(2, [createData 1 2 [106] 0]), (3, [createData 1 3 [107] 0])]⟩).1.delayed_frames =
      [(3, [createData 1 3 [107] 0])]) ∧
    ((createData 1 2 [106] 0), (1 : ℤ), (5 : ℤ)) ∈
      (checkDelayedFrames ⟨1, [(2, ⟨2, 5, 100, 1, true⟩)], [],
        [(2, [createData 1 2 [106] 0]), (3, [createData 1 3 [107] 0])]⟩).2 := by
  refine ⟨(delayed_frames_behavior.1 ⟨1, [], [], [(9, [createData 1 9 [] 0])]⟩
      (mkFrame "ACK" 3 none [] 10 0 0 []) 0 rfl).1,
    ((delayed_frames_behavior.2.1 ⟨1, [(2, ⟨2, 5, 100, 1, true⟩)], [],
      [(2, [createData 1 2 [106] 0]), (3, [createData 1 3 [107] 0])]⟩).1).trans
      (by decide),
    delayed_frames_behavior.2.2 ⟨1, [(2, ⟨2, 5, 100, 1, true⟩)], [],
      [(2, [createData 1 2 [106] 0]), (3, [createData 1 3 [107] 0])]⟩
      (2, [createData 1 2 [106] 0]) ⟨2, 5, 100, 1, true⟩ (createData 1 2 [106] 0)
      (by decide) (by decide) (by decide)⟩

/-! ### C3 — send path without a route -/

set_option maxRecDepth 8000 in
/-- C3: the claim fails on the code — a send to destination 2, which has
no routing entry and is absent from the LocalMap (the LocalMap holds ids 1
and 3), enqueues the frame into DelayedFrames[2] but transmits no RREQ at
all: _initiate_route_discovery does nothing unless the destination itself
is in the LocalMap, whereas the claim requires a broadcast to every
LocalMap id other than self regardless. -/
theorem route_discovery_guard_cex :
    sendFrame ⟨1, [], [(1, ((0, 0), 0)), (3, ((0, 0), 0))], []⟩
        (createData 1 2 [104] 0) 2 0 true =
      (⟨1, [], [(1, ((0, 0), 0)), (3, ((0, 0), 0))],
        [(2, [createData 1 2 [104] 0])]⟩, []) := by
  decide

/-- C3 (amended): on a send whose destination has no routing entry, the
frame is appended to DelayedFrames[destination], and an RREQ
(source = self, target = destination, hop_count = 0, max_hops = 10) is
transmitted to every LocalMap id other than self only when the destination
itself appears in the LocalMap; when it does not, no RREQ is sent. -/
theorem send_no_route_behavior (n : PNode) (f : Frame) (target : Int)
    (now : ℚ) (ok : Bool) (h : alookup n.routing_table target = none) :
    (sendFrame n f target now ok).2 =
      (if (alookup n.local_map target).isSome then
        (getNeighbors n).map
          (fun nb => (createRreq n.node_id target 0 10 now, n.node_id, nb))
      else []) ∧
    alookup (sendFrame n f target now ok).1.delayed_frames target =
      some ((alookup n.delayed_frames target).getD [] ++ [f]) ∧
    (sendFrame n f target now ok).1.routing_table = n.routing_table ∧
    (sendFrame n f target now ok).1.local_map = n.local_map ∧
    (sendFrame n f target now ok).1.node_id = n.node_id := by
  refine ⟨by simp [sendFrame, h, initiateRouteDiscovery], ?_,
    by simp [sendFrame, h, delayFrame], by simp [sendFrame, h, delayFrame],
    by simp [sendFrame, h, delayFrame]⟩
  simp only [sendFrame, h]
  cases hdl : alookup n.delayed_frames target with
  | none =>
      simp only [delayFrame, hdl]
      rw [alookup_append_right _ hdl]
      simp [alookup]
  | some l =>
      simp only [delayFrame, hdl]
      rw [alookup_aset_self]
      simp

set_option maxRecDepth 8000 in
/-- Witness for `send_no_route_behavior`: a node knowing ids 1 (itself), 2
and 4 sends to destination 2 with no route: the frame is queued under
destination 2 and the RREQ (hop_count 0, max_hops 10) goes to both other
LocalMap ids, 2 and 4. -/
theorem send_no_route_behavior_witness :
    (sendFrame ⟨1, [], [(1, ((0, 0), 0)), (2, ((0, 0), 0)), (4, ((0, 0), 0))], []⟩
        (createData 1 2 [104, 105] 0) 2 3 false).2 =
      [(createRreq 1 2 0 10 3, 1, 2), (createRreq 1 2 0 10 3, 1, 4)] ∧
    alookup (sendFrame ⟨1, [], [(1, ((0, 0), 0)), (2, ((0, 0), 0)), (4, ((0, 0), 0))],
        []⟩ (createData 1 2 [104, 105] 0) 2 3 false).1.delayed_frames 2 =
      some [createData 1 2 [104, 105] 0] := by
  have h := send_no_route_behavior
    ⟨1, [], [(1, ((0, 0), 0)), (2, ((0, 0), 0)), (4, ((0, 0), 0))], []⟩
    (createData 1 2 [104, 105] 0) 2 3 false rfl
  exact ⟨h.1.trans (by decide), (h.2.1).trans (by decide)⟩

end SONet

